/-
  Verification of the RecaptchaV2-Solver repository against its
  natural-language specification.

  Shallow embedding of the Python sources:
    src/sync_solver.py   (ReCaptchaSolver, AudioProcessor)
    src/async_solver.py  (AsyncReCaptchaSolver, AsyncAudioProcessor;
                          structurally identical to the sync solver)
    src/api_solver.py    (ReCaptchaSolver for the API path, APIHandler)
    src/main.py          (callers; imports CaptchaSolverPool and
                          AsyncCaptchaSolverPool, which are absent from
                          the sources and are therefore modelled from
                          the spec, as marked below)

  Browser effects (element waits, navigation, attribute reads) are
  embedded as environments that prescribe the outcome of each call:
  a `wait_for_selector` either returns an element or raises, which we
  model with `Except`.  Machine strings are `String`/`List Char`; the
  audio cleaning step is modelled over ASCII codepoints (`List Nat`)
  because the Python predicates `str.isalnum`/`str.isspace`/`str.lower`
  are used there character by character.
-/
import Mathlib

/-! ## String utilities (Python `in` and `str.lower`) -/

/-- Python's substring test `needle in haystack`, on character lists:
structural scan that checks `needle` as a prefix at every position. -/
def containsList (needle : List Char) : List Char → Bool
  | [] => needle.isEmpty
  | c :: rest => needle.isPrefixOf (c :: rest) || containsList needle rest

/-- Python's substring test `needle in haystack` on strings. -/
def containsSub (needle haystack : String) : Bool :=
  containsList needle.data haystack.data

/-- ASCII fragment of Python's `str.lower` on a single character. -/
def pyLowerChar (c : Char) : Char :=
  if 'A' ≤ c ∧ c ≤ 'Z' then Char.ofNat (c.toNat + 32) else c

/-- ASCII fragment of Python's `str.lower` on a string. -/
def pyLower (s : String) : String :=
  String.mk (s.data.map pyLowerChar)

/-! ## Timeout tiers

From `src/sync_solver.py` (`ReCaptchaSolver.__init__`,
`_handle_challenge_iframe`, `_get_audio_challenge`); the async solver
(`src/async_solver.py`) uses the same expressions, and
`src/api_solver.py` hard-codes the three element waits. -/

/-- `src/sync_solver.py` line 132: `20000 if has_proxy else 8000`
(default timeout, governs the checkbox / anchor-iframe waits). -/
def defaultTimeoutMs (hasProxy : Bool) : Nat :=
  if hasProxy then 20000 else 8000

/-- `src/sync_solver.py` line 243: `10000 if has_proxy else 3000`. -/
def challengeFrameTimeoutMs (hasProxy : Bool) : Nat :=
  if hasProxy then 10000 else 3000

/-- `src/sync_solver.py` line 255: `5000 if has_proxy else 2000`. -/
def audioButtonTimeoutMs (hasProxy : Bool) : Nat :=
  if hasProxy then 5000 else 2000

/-- `src/sync_solver.py` line 273: `12000 if has_proxy else 5000`. -/
def downloadLinkTimeoutMs (hasProxy : Bool) : Nat :=
  if hasProxy then 12000 else 5000

/-- `src/async_solver.py` line 159: `20000 if has_proxy else 8000`. -/
def asyncDefaultTimeoutMs (hasProxy : Bool) : Nat :=
  if hasProxy then 20000 else 8000

/-- `src/async_solver.py` line 267: `10000 if has_proxy else 3000`. -/
def asyncChallengeFrameTimeoutMs (hasProxy : Bool) : Nat :=
  if hasProxy then 10000 else 3000

/-- `src/async_solver.py` line 279: `5000 if has_proxy else 2000`. -/
def asyncAudioButtonTimeoutMs (hasProxy : Bool) : Nat :=
  if hasProxy then 5000 else 2000

/-- `src/async_solver.py` line 297: `12000 if has_proxy else 5000`. -/
def asyncDownloadLinkTimeoutMs (hasProxy : Bool) : Nat :=
  if hasProxy then 12000 else 5000

/-- `src/api_solver.py` line 149: `20000 if has_proxy else 8000`. -/
def apiDefaultTimeoutMs (hasProxy : Bool) : Nat :=
  if hasProxy then 20000 else 8000

/-- `src/api_solver.py` line 183: the challenge-frame wait is the
constant `timeout=3000`, with no proxy conditional. -/
def apiChallengeFrameTimeoutMs (_hasProxy : Bool) : Nat := 3000

/-- `src/api_solver.py` line 191: the audio-button wait is the constant
`timeout=2000`, with no proxy conditional. -/
def apiAudioButtonTimeoutMs (_hasProxy : Bool) : Nat := 2000

/-- `src/api_solver.py` line 194: the download-link wait is the constant
`timeout=5000`, with no proxy conditional. -/
def apiDownloadLinkTimeoutMs (_hasProxy : Bool) : Nat := 5000

/-! ## Token extraction (`ReCaptchaSolver._get_token`) -/

/-- Outcome of one token-extraction strategy (one entry of
`token_methods` in `_get_token`): the Python call either raises
(`err`) or returns an `Optional[str]` value (`val`). -/
inductive StratOutcome
  | err (msg : String)
  | val (t : Option String)
deriving DecidableEq

/-- `src/sync_solver.py` lines 318-329: iterate over the strategy list;
a raising strategy is swallowed and the next is tried; a truthy token
(non-None, non-empty) is returned as `str(token)`; an exhausted list
raises `Could not retrieve reCAPTCHA token`. -/
def tryMethods : List StratOutcome → Except String String
  | [] => .error "Could not retrieve reCAPTCHA token"
  | .err _ :: rest => tryMethods rest
  | .val none :: rest => tryMethods rest
  | .val (some s) :: rest => if s.isEmpty then tryMethods rest else .ok s

/-- The token a single strategy yields under Python truthiness:
`none` when the strategy raises or returns a falsy value. -/
def yieldsToken : StratOutcome → Option String
  | .err _ => none
  | .val none => none
  | .val (some s) => if s.isEmpty then none else some s

/-- `src/sync_solver.py` lines 311-316: `_get_token` runs exactly the
four methods `_get_response_token`, `_get_bframe_token`,
`_get_frame_token`, `_get_enterprise_token`, in that order. -/
def getTokenChain (r1 r2 r3 r4 : StratOutcome) : Except String String :=
  tryMethods [r1, r2, r3, r4]

/-! ## Rate-limit detection (`ReCaptchaSolver._check_rate_limit`) -/

/-- `src/sync_solver.py` lines 301-307: read the banner element's text
(`.rc-doscaptcha-header`); `"Try again later" in text` decides the
result; any failure inside the `try` (locator failure, or the
`TypeError` from `in` applied to a `None` text) hits the bare
`except` and returns `False`.  The argument models the text read:
`.error` = the read raised, `.ok none` = it returned `None`,
`.ok (some t)` = it returned the text `t`. -/
def check_rate_limit : Except Unit (Option String) → Bool
  | .ok (some t) => containsSub "Try again later" t
  | _ => false

/-! ## Audio transcription cleaning (`AudioProcessor._convert_audio_to_text`)

The character-level Python predicates are modelled on ASCII
codepoints (`List Nat`): `isalnum` as ASCII letters and digits,
`isspace` as the six ASCII whitespace characters, `lower` as the
`A-Z` shift.  This is the ASCII fragment of the Python semantics. -/

/-- ASCII fragment of Python `str.isalnum` on one codepoint. -/
def pyIsAlnumCp (c : Nat) : Bool :=
  (65 ≤ c && c ≤ 90) || (97 ≤ c && c ≤ 122) || (48 ≤ c && c ≤ 57)

/-- ASCII fragment of Python `str.isspace` on one codepoint
(space, tab, LF, VT, FF, CR). -/
def pyIsSpaceCp (c : Nat) : Bool :=
  c == 32 || c == 9 || c == 10 || c == 11 || c == 12 || c == 13

/-- ASCII fragment of Python `str.lower` on one codepoint. -/
def pyLowerCp (c : Nat) : Nat :=
  if 65 ≤ c ∧ c ≤ 90 then c + 32 else c

/-- `src/sync_solver.py` line 78:
`''.join(c.lower() for c in text if c.isalnum() or c.isspace())`. -/
def cleanText (t : List Nat) : List Nat :=
  (t.filter (fun c => pyIsAlnumCp c || pyIsSpaceCp c)).map pyLowerCp

/-- Python `str.strip()` (whitespace from both ends) on codepoints. -/
def pyStrip (l : List Nat) : List Nat :=
  ((l.dropWhile pyIsSpaceCp).reverse.dropWhile pyIsSpaceCp).reverse

/-- Outcome of `recognize_google` inside
`_convert_audio_to_text`: the recognizer raises `UnknownValueError`,
raises `RequestError`, or returns a text. -/
inductive RecogOutcome
  | unknownValue
  | requestErr
  | text (t : List Nat)

/-- `src/sync_solver.py` lines 70-99 (`_convert_audio_to_text`):
clean the recognized text; an empty cleaned text raises
`UnknownValueError`, which the `except sr.UnknownValueError` arm turns
into `Could not understand audio`; a non-empty cleaned text is
returned stripped.  The async and api variants (lines 116-138 of
`src/async_solver.py`, 117-128 of `src/api_solver.py`) share the
cleaning expression. -/
def convert_audio_to_text : RecogOutcome → Except String (List Nat)
  | .unknownValue => .error "Could not understand audio"
  | .requestErr => .error "Could not request results from speech recognition service"
  | .text t =>
    let cleaned := cleanText t
    if cleaned.isEmpty then .error "Could not understand audio"
    else .ok (pyStrip cleaned)

/-! ## Per-session state machine (`ReCaptchaSolver` of `src/sync_solver.py`) -/

/-- A Python exception as seen by the solver: a Playwright
`TimeoutError` (caught specially by `except TimeoutError`) or a
generic `Exception` carrying a message. -/
inductive PyErr
  | timeoutErr
  | exn (msg : String)
deriving DecidableEq

/-- `str(e)` of an embedded exception.  `str` of a Playwright
`TimeoutError` is of the form `Timeout ...ms exceeded.`; the model uses
the fixed stand-in `Timeout exceeded` (what matters below is only that
it does not contain `rate limit` once lowercased). -/
def errMsg : PyErr → String
  | .timeoutErr => "Timeout exceeded"
  | .exn m => m

/-- Observable side effects of a session that the claims speak about:
invoking the audio-transcription collaborator, sleeping, and closing
the browser context / browser. -/
inductive Ev
  | transcribe
  | sleepEv (d : Nat)
  | closeContext
  | closeBrowser
deriving DecidableEq

/-- The `self.page` object as the solver sees it.  The solver probes a
`proxy` attribute on it in two different ways:
`bool(getattr(page, 'proxy', None))` for timeouts and
`hasattr(self.page, 'proxy')` for the rate-limit message.  `none`
means the attribute is absent; `some b` means it is present and `b`
tells whether its value is truthy. -/
structure PageObj where
  proxyAttr : Option Bool
deriving DecidableEq

/-- Python `hasattr(page, 'proxy')`. -/
def hasattrProxy (p : PageObj) : Bool := p.proxyAttr.isSome

/-- Python `bool(getattr(page, 'proxy', None))`. -/
def getattrProxyTruthy (p : PageObj) : Bool := p.proxyAttr.getD false

/-- `src/sync_solver.py` line 267 / 198: the generic rate-limit
message. -/
def rateLimitGenericMsg : String :=
  "Rate limit reached, consider using or changing your proxy."

/-- `src/sync_solver.py` line 266 / 196: the proxy-specific rate-limit
message. -/
def rateLimitProxyMsg : String :=
  "Rate limit reached, consider using or changing your proxy. Please use a different proxy."

/-- The final rate-limit message chosen by `solve_recaptcha` lines
194-198 from its `proxy` argument. -/
def rlFinalMsg : Option Unit → String
  | some _ => rateLimitProxyMsg
  | none => rateLimitGenericMsg

/-- Environment of one `_solve` run: the outcome the page produces for
each browser call, as a function of the timeout passed to the wait.
`Except.error .timeoutErr` is a raised `TimeoutError`. -/
structure SolveEnv where
  /-- `_handle_initial_iframe`: anchor-iframe wait, `content_frame`,
  checkbox wait and click (runs under the default timeout). -/
  initialStep : Nat → Except PyErr Unit
  /-- `_handle_challenge_iframe`: bframe wait then `content_frame`;
  `.ok none` models a located element whose `content_frame()` is
  `None`, `.error .timeoutErr` models the wait timing out. -/
  challengeWait : Nat → Except PyErr (Option Unit)
  /-- audio-button wait and click. -/
  audioButtonWait : Nat → Except PyErr Unit
  /-- text read of the `.rc-doscaptcha-header` banner. -/
  bannerText : Except Unit (Option String)
  /-- download-link wait; on success carries `get_attribute("href")`
  (`none` = attribute absent). -/
  downloadWait : Nat → Except PyErr (Option String)
  /-- `audio_processor.process_audio(audio_url)`. -/
  transcribeAudio : String → Except PyErr String
  /-- `_submit_audio_solution`. -/
  submitStep : String → Except PyErr Unit
  /-- the four `_get_token` strategies. -/
  strat1 : StratOutcome
  strat2 : StratOutcome
  strat3 : StratOutcome
  strat4 : StratOutcome

/-- `src/sync_solver.py` lines 248-292 (`_get_audio_challenge`).
The audio-button wait is guarded by `except TimeoutError`: on timeout
the rate limit is checked and, if reported, an exception is raised
whose message depends on `hasattr(self.page, 'proxy')`; if no rate
limit is reported, control falls through to the download-link wait.
The download-link wait's `except TimeoutError` re-raises the timeout
when no rate limit is reported.  A falsy `href` raises
`Could not get audio URL`. -/
def get_audio_challenge (page : PageObj) (env : SolveEnv) : Except PyErr String :=
  let hasProxy := getattrProxyTruthy page
  let afterButton : Except PyErr Unit :=
    match env.audioButtonWait (audioButtonTimeoutMs hasProxy) with
    | .ok _ => .ok ()
    | .error .timeoutErr =>
      if check_rate_limit env.bannerText then
        if hasattrProxy page then .error (.exn rateLimitProxyMsg)
        else .error (.exn rateLimitGenericMsg)
      else .ok ()
    | .error e => .error e
  match afterButton with
  | .error e => .error e
  | .ok _ =>
    match env.downloadWait (downloadLinkTimeoutMs hasProxy) with
    | .ok (some url) =>
      if url.isEmpty then .error (.exn "Could not get audio URL") else .ok url
    | .ok none => .error (.exn "Could not get audio URL")
    | .error .timeoutErr =>
      if check_rate_limit env.bannerText then
        if hasattrProxy page then .error (.exn rateLimitProxyMsg)
        else .error (.exn rateLimitGenericMsg)
      else .error .timeoutErr
    | .error e => .error e

/-- `src/sync_solver.py` lines 220-225: `_solve` wraps any exception
into `Failed to solve reCAPTCHA: {str(e)}`. -/
def wrapSolveErr : Except PyErr String → Except PyErr String
  | .ok t => .ok t
  | .error e => .error (.exn ("Failed to solve reCAPTCHA: " ++ errMsg e))

/-- `src/sync_solver.py` lines 209-225 (`_solve`): initial iframe and
checkbox, challenge-iframe detection, audio challenge, transcription,
submission, token extraction; every exception is wrapped by
`wrapSolveErr`.  The second component records whether the
audio-transcription collaborator was invoked. -/
def solveInner (page : PageObj) (env : SolveEnv) : Except PyErr String × List Ev :=
  let hasProxy := getattrProxyTruthy page
  let core : Except PyErr String × List Ev :=
    match env.initialStep (defaultTimeoutMs hasProxy) with
    | .error e => (.error e, [])
    | .ok _ =>
      match env.challengeWait (challengeFrameTimeoutMs hasProxy) with
      | .error e => (.error e, [])
      | .ok none =>
        ((getTokenChain env.strat1 env.strat2 env.strat3 env.strat4).mapError .exn, [])
      | .ok (some _) =>
        match get_audio_challenge page env with
        | .error e => (.error e, [])
        | .ok url =>
          match env.transcribeAudio url with
          | .error e => (.error e, [Ev.transcribe])
          | .ok answer =>
            match env.submitStep answer with
            | .error e => (.error e, [Ev.transcribe])
            | .ok _ =>
              ((getTokenChain env.strat1 env.strat2 env.strat3 env.strat4).mapError .exn,
                [Ev.transcribe])
  (wrapSolveErr core.1, core.2)

/-- Outcome of the score-check POST in `solve_recaptcha` lines 166-179:
the request raises (`netErr`), `response.json()` raises (`badJson`),
the parsed JSON has no `riskAnalysis.score` field (`jsonMissing`, so
the chained `.get` calls produce `None`), or a score is present. -/
inductive PostOutcome
  | netErr
  | badJson
  | jsonMissing
  | jsonScore (s : Int)
deriving DecidableEq

/-- Value of the Python `score` variable after the score-check block:
the string `"Unknown"`, Python `None`, or a number. -/
inductive ScoreVal
  | unknownStr
  | pyNone
  | num (s : Int)
deriving DecidableEq

/-- `src/sync_solver.py` lines 166-179: a raising request or JSON parse
is caught and sets `score = "Unknown"`; a missing field makes
`result.get("riskAnalysis", {}).get("score")` return `None` without
raising. -/
def runScoreCheck : PostOutcome → ScoreVal
  | .netErr => .unknownStr
  | .badJson => .unknownStr
  | .jsonMissing => .pyNone
  | .jsonScore s => .num s

/-- Python falsiness of an `Optional[str]` (`not site_key`). -/
def optStrFalsy : Option String → Bool
  | none => true
  | some s => s.isEmpty

/-- Environment of one `solve_recaptcha` run: outcomes of browser
startup, navigation, and the inner solve. -/
structure OuterEnv where
  /-- `p.chromium.launch(...)`. -/
  launch : Except PyErr Unit
  /-- `browser.new_context(**context_options)`. -/
  newContext : Except PyErr Unit
  /-- `context.new_page()`. -/
  newPage : Except PyErr Unit
  /-- `page.goto(url, wait_until="commit")` (and `set_content`). -/
  goto : Except PyErr Unit
  /-- the `self.page` object probed for the proxy attribute. -/
  page : PageObj
  /-- environment of the inner `_solve`. -/
  inner : SolveEnv

/-- `src/sync_solver.py` lines 200-202: the `finally` block's
`if wait: time.sleep(wait)` — a sleep event exactly when `wait` is
truthy (not `None` and not `0`). -/
def waitEvents : Option Nat → List Ev
  | some d => if d == 0 then [] else [Ev.sleepEv d]
  | none => []

/-- `src/sync_solver.py` lines 135-207 (`solve_recaptcha`), without the
score field: parameter check (`check_score and not site_key` raises a
`ValueError` before any browser work); browser launch, context and
page creation (failures there propagate through the outer `except`
at line 205 without reaching the inner `finally`); then the inner
`try`/`except`/`finally`: the `except` rewrites any error whose
lowercased message contains `rate limit` into the proxy-dependent
rate-limit message, and the `finally` sleeps for `wait` (when truthy)
and then closes the context and the browser. -/
def sessionCore (proxy : Option Unit) (wait : Option Nat) (checkScore : Bool)
    (siteKey : Option String) (oe : OuterEnv) : Except PyErr String × List Ev :=
  if checkScore && optStrFalsy siteKey then
    (.error (.exn "Score checking requires a site key to be provided"), [])
  else
    match oe.launch with
    | .error e => (.error e, [])
    | .ok _ =>
      match oe.newContext with
      | .error e => (.error e, [])
      | .ok _ =>
        match oe.newPage with
        | .error e => (.error e, [])
        | .ok _ =>
          let body : Except PyErr String × List Ev :=
            match oe.goto with
            | .error e => (.error e, [])
            | .ok _ =>
              match solveInner oe.page oe.inner with
              | (.ok tok, evs) => (.ok tok, evs)
              | (.error e, evs) =>
                if containsSub "rate limit" (pyLower (errMsg e)) then
                  (.error (.exn (rlFinalMsg proxy)), evs)
                else (.error e, evs)
          (body.1, body.2 ++ (waitEvents wait ++ [Ev.closeContext, Ev.closeBrowser]))

/-- The `score` variable as it stands when `solve_recaptcha` returns:
set only on the success path and only when `check_score` is true. -/
def sessionScore (checkScore : Bool) (po : PostOutcome) : Except PyErr String → Option ScoreVal
  | .ok _ => if checkScore then some (runScoreCheck po) else none
  | .error _ => none

/-- Observable outcome of one `solve_recaptcha` call: the returned
token or raised exception, the session's event trace, and the score
value (when computed). -/
structure SessionOut where
  result : Except PyErr String
  events : List Ev
  score : Option ScoreVal

/-- `src/sync_solver.py` lines 135-207 (`solve_recaptcha`): the core
run, paired with the score-check outcome.  The score check runs inside
its own `try`/`except` on the success path and cannot alter the
returned token or raise. -/
def solve_recaptcha (proxy : Option Unit) (wait : Option Nat) (checkScore : Bool)
    (siteKey : Option String) (oe : OuterEnv) (po : PostOutcome) : SessionOut :=
  let c := sessionCore proxy wait checkScore siteKey oe
  ⟨c.1, c.2, sessionScore checkScore po c.1⟩

/-! ## Concurrency pool

Modelled from the spec: `CaptchaSolverPool` and
`AsyncCaptchaSolverPool` are imported by `src/main.py` (lines 4-5) and
used by `run_sync_multiple` / `run_async_multiple`, but their
definitions are not under `src/`.  The pool below follows spec §4.5:
a counting admission gate of size `maxConcurrent`; each task acquires
a slot, runs to completion, releases the slot; results are collected
keyed by original task index and returned in original order once all
tasks finish.  Tasks are identified by their submission index and task
`i`'s session outcome is `run i`; a scheduler is an arbitrary sequence
of admit/finish actions, which covers every interleaving of admissions
and completions. -/

/-- Pool state: index of the next task to admit, indices currently
running, and completed results keyed by task index (in completion
order). -/
structure PoolCfg (β : Type) where
  nextIdx : Nat
  running : List Nat
  done : List (Nat × β)
deriving DecidableEq

/-- One scheduler action: admit the next queued task, or finish the
running task with index `i`. -/
inductive PoolAction
  | acquire
  | finish (i : Nat)
deriving DecidableEq

/-- The empty pool. -/
def poolInit (β : Type) : PoolCfg β := ⟨0, [], []⟩

/-- Modelled from the spec (§4.5): one scheduler step.  An admission
only happens while fewer than `m` sessions are live and tasks remain;
a finish only happens for a running task, records that task's result
keyed by its index, and releases the slot.  Invalid actions leave the
state unchanged. -/
def poolStep {β : Type} (m n : Nat) (run : Nat → β) (s : PoolCfg β) :
    PoolAction → PoolCfg β
  | .acquire =>
    if s.running.length < m ∧ s.nextIdx < n then
      ⟨s.nextIdx + 1, s.running ++ [s.nextIdx], s.done⟩
    else s
  | .finish i =>
    if i ∈ s.running then
      ⟨s.nextIdx, s.running.erase i, s.done ++ [(i, run i)]⟩
    else s

/-- Modelled from the spec (§4.5): run a scheduler action sequence
from the empty pool. -/
def poolRun {β : Type} (m n : Nat) (run : Nat → β) (acts : List PoolAction) : PoolCfg β :=
  acts.foldl (fun s a => poolStep m n run s a) (poolInit β)

/-- The batch is finished: all `n` tasks admitted and none running. -/
def poolFinal {β : Type} (n : Nat) (s : PoolCfg β) : Bool :=
  s.nextIdx == n && s.running.isEmpty

/-- Results recorded for task index `i`. -/
def resultsFor {β : Type} (i : Nat) (done : List (Nat × β)) : List β :=
  (done.filter (fun p => p.1 == i)).map (fun p => p.2)

/-- The returned batch: the slot of task `i` holds the results recorded
for index `i` (spec: return results in original submission order). -/
def poolGather {β : Type} (n : Nat) (done : List (Nat × β)) : List (List β) :=
  (List.range n).map (fun i => resultsFor i done)

/-- Invariant of the pool transition system. -/
def PoolInv {β : Type} (m : Nat) (run : Nat → β) (s : PoolCfg β) : Prop :=
  s.running.Nodup ∧ s.running.length ≤ m ∧ (∀ i ∈ s.running, i < s.nextIdx) ∧
    ∀ i, resultsFor i s.done =
      if i < s.nextIdx ∧ i ∉ s.running then [run i] else []

/-! ## Concrete environments used by the counterexamples and witnesses -/

/-- A fully successful session environment: challenge present, audio
challenge solved, first token strategy succeeds. -/
def happyEnv : SolveEnv where
  initialStep := fun _ => .ok ()
  challengeWait := fun _ => .ok (some ())
  audioButtonWait := fun _ => .ok ()
  bannerText := .ok none
  downloadWait := fun _ => .ok (some "https://snd.example/audio.mp3")
  transcribeAudio := fun _ => .ok "six two one"
  submitStep := fun _ => .ok ()
  strat1 := .val (some "TOKEN")
  strat2 := .val none
  strat3 := .err "frame detached"
  strat4 := .val (some "TOKEN4")

/-- A successful outer environment around `happyEnv`; the page object
carries no `proxy` attribute. -/
def happyOuter : OuterEnv where
  launch := .ok ()
  newContext := .ok ()
  newPage := .ok ()
  goto := .ok ()
  page := ⟨none⟩
  inner := happyEnv

/-- Like `happyEnv`, but the challenge-iframe wait times out: the
selector never matches within the detection timeout. -/
def noBframeEnv : SolveEnv :=
  { happyEnv with challengeWait := fun _ => .error .timeoutErr }

/-- Like `happyEnv`, but the located challenge iframe element has a
null `content_frame()`. -/
def contentNullEnv : SolveEnv :=
  { happyEnv with challengeWait := fun _ => .ok none }

/-- Like `happyEnv`, but the audio-button wait times out while the
rest of the audio challenge is still reachable. -/
def audioTimeoutEnv : SolveEnv :=
  { happyEnv with audioButtonWait := fun _ => .error .timeoutErr }

/-- Outer environment whose `new_context` call raises (for example, a
malformed proxy configuration) after the browser was launched. -/
def ctxFailOuter : OuterEnv :=
  { happyOuter with newContext := .error (.exn "invalid proxy configuration") }

/-- Outer environment whose navigation (`page.goto`) raises. -/
def gotoFailOuter : OuterEnv :=
  { happyOuter with goto := .error (.exn "net ERR_TIMED_OUT") }

/-- Outer environment around `audioTimeoutEnv`. -/
def audioTimeoutOuter : OuterEnv :=
  { happyOuter with inner := audioTimeoutEnv }

/-- Like `audioTimeoutEnv`, but the rate-limit banner is present and
reads `Try again later, please`. -/
def rateLimitedEnv : SolveEnv :=
  { audioTimeoutEnv with bannerText := .ok (some "Try again later, please") }

/-- Outer environment around `rateLimitedEnv`. -/
def rateLimitedOuter : OuterEnv :=
  { happyOuter with inner := rateLimitedEnv }

/-- A scheduler sequence for 5 tasks under bound 2 in which tasks
complete out of submission order (1 before 0, 3 before 2). -/
def c2Acts : List PoolAction :=
  [.acquire, .acquire, .finish 1, .acquire, .finish 0, .acquire,
   .finish 3, .acquire, .finish 2, .finish 4]

/-! ## Helper lemmas -/

/-- `containsList` decides list containment (Python `in`). -/
theorem containsList_iff (needle : List Char) (haystack : List Char) :
    containsList needle haystack = true ↔ needle <:+: haystack := by
  induction haystack with
  | nil =>
    simp [containsList, List.isEmpty_iff, List.infix_nil]
  | cons c rest ih =>
    simp only [containsList, Bool.or_eq_true, List.isPrefixOf_iff_prefix, ih,
      List.infix_cons_iff]

/-- A strategy that yields no token is skipped by the extraction loop. -/
theorem tryMethods_cons_none (r : StratOutcome) (rest : List StratOutcome)
    (h : yieldsToken r = none) : tryMethods (r :: rest) = tryMethods rest := by
  cases r with
  | err m => rfl
  | val t =>
    cases t with
    | none => rfl
    | some s =>
      simp only [yieldsToken] at h
      by_cases hs : s.isEmpty
      · simp [tryMethods, hs]
      · simp [hs] at h

/-- A strategy that yields a token short-circuits the extraction loop. -/
theorem tryMethods_cons_some (r : StratOutcome) (rest : List StratOutcome)
    (t : String) (h : yieldsToken r = some t) : tryMethods (r :: rest) = .ok t := by
  cases r with
  | err m => simp [yieldsToken] at h
  | val o =>
    cases o with
    | none => simp [yieldsToken] at h
    | some s =>
      simp only [yieldsToken] at h
      by_cases hs : s.isEmpty
      · simp [hs] at h
      · simp only [hs, if_false] at h
        cases h
        simp [tryMethods, hs]

/-- `pyLowerCp` is idempotent. -/
theorem pyLowerCp_idem (c : Nat) : pyLowerCp (pyLowerCp c) = pyLowerCp c := by
  by_cases h : 65 ≤ c ∧ c ≤ 90
  · simp only [pyLowerCp, if_pos h]
    rw [if_neg (by omega)]
  · simp only [pyLowerCp, if_neg h]

/-- Lowercasing keeps a kept character alphanumeric-or-space. -/
theorem pyLowerCp_keeps (c : Nat) (h : (pyIsAlnumCp c || pyIsSpaceCp c) = true) :
    (pyIsAlnumCp (pyLowerCp c) || pyIsSpaceCp (pyLowerCp c)) = true := by
  by_cases hc : 65 ≤ c ∧ c ≤ 90
  · simp only [pyLowerCp, if_pos hc, pyIsAlnumCp, pyIsSpaceCp] at h ⊢
    simp only [Bool.or_eq_true, Bool.and_eq_true, decide_eq_true_eq, beq_iff_eq] at h ⊢
    omega
  · simpa only [pyLowerCp, if_neg hc] using h

/-- Every character of the cleaned text is a lowered kept character. -/
theorem cleanText_mem {t : List Nat} {c : Nat} (h : c ∈ cleanText t) :
    (pyIsAlnumCp c || pyIsSpaceCp c) = true ∧ pyLowerCp c = c := by
  unfold cleanText at h
  rcases List.mem_map.mp h with ⟨c0, hc0, rfl⟩
  have hf : (pyIsAlnumCp c0 || pyIsSpaceCp c0) = true := (List.mem_filter.mp hc0).2
  exact ⟨pyLowerCp_keeps c0 hf, pyLowerCp_idem c0⟩

/-- Stripping only removes characters. -/
theorem pyStrip_subset {l : List Nat} {c : Nat} (h : c ∈ pyStrip l) : c ∈ l := by
  unfold pyStrip at h
  rw [List.mem_reverse] at h
  have h1 : c ∈ (l.dropWhile pyIsSpaceCp).reverse :=
    (List.dropWhile_sublist _).subset h
  rw [List.mem_reverse] at h1
  exact (List.dropWhile_sublist _).subset h1

/-- The events of the inner solve are at most one transcription. -/
theorem solveInner_events (page : PageObj) (env : SolveEnv) :
    (solveInner page env).2 = [] ∨ (solveInner page env).2 = [Ev.transcribe] := by
  simp only [solveInner]
  repeat' split
  all_goals simp

/-- Appending a completion record to the results of a task index. -/
theorem resultsFor_append {β : Type} (j i : Nat) (done : List (Nat × β)) (b : β) :
    resultsFor j (done ++ [(i, b)]) =
      resultsFor j done ++ (if i = j then [b] else []) := by
  by_cases h : i = j
  · have hb : (i == j) = true := beq_iff_eq.mpr h
    simp [resultsFor, List.filter_append, List.filter, hb, h]
  · have hb : (i == j) = false := beq_eq_false_iff_ne.mpr h
    simp [resultsFor, List.filter_append, List.filter, hb, h]

/-- The pool invariant holds initially. -/
theorem poolInv_init {β : Type} (m : Nat) (run : Nat → β) :
    PoolInv m run (poolInit β) := by
  refine ⟨List.nodup_nil, by simp [poolInit], by simp [poolInit], fun i => ?_⟩
  have : ¬ (i < (poolInit β).nextIdx ∧ i ∉ (poolInit β).running) := by
    simp [poolInit]
  simp [poolInit, resultsFor]

/-- The pool invariant is preserved by every scheduler step. -/
theorem poolInv_step {β : Type} (m n : Nat) (run : Nat → β) (s : PoolCfg β)
    (a : PoolAction) (h : PoolInv m run s) : PoolInv m run (poolStep m n run s a) := by
  obtain ⟨hnd, hlen, hlt, hres⟩ := h
  cases a with
  | acquire =>
    by_cases hc : s.running.length < m ∧ s.nextIdx < n
    · have hstep : poolStep m n run s .acquire =
          ⟨s.nextIdx + 1, s.running ++ [s.nextIdx], s.done⟩ := by
        simp [poolStep, if_pos hc]
      rw [hstep]
      have hnotmem : s.nextIdx ∉ s.running :=
        fun hm => absurd (hlt _ hm) (lt_irrefl _)
      refine ⟨?_, ?_, ?_, ?_⟩ <;> dsimp only
      · rw [List.nodup_append]
        refine ⟨hnd, List.nodup_singleton _, ?_⟩
        intro x hx hy
        simp only [List.mem_singleton] at hy
        subst hy
        exact hnotmem hx
      · simpa using hc.1
      · intro i hi
        rcases List.mem_append.mp hi with h1 | h1
        · exact Nat.lt_succ_of_lt (hlt i h1)
        · simp only [List.mem_singleton] at h1
          subst h1
          exact Nat.lt_succ_self _
      · intro i
        rw [hres i]
        refine if_congr ?_ rfl rfl
        constructor
        · rintro ⟨h1, h2⟩
          have hne : i ≠ s.nextIdx := by omega
          refine ⟨Nat.lt_succ_of_lt h1, ?_⟩
          intro hm
          rcases List.mem_append.mp hm with hm | hm
          · exact h2 hm
          · simp only [List.mem_singleton] at hm
            exact hne hm
        · rintro ⟨h1, h2⟩
          have hni : i ∉ s.running := fun hm => h2 (List.mem_append.mpr (Or.inl hm))
          have hne : i ≠ s.nextIdx := by
            intro he
            exact h2 (List.mem_append.mpr (Or.inr (by simp [he])))
          exact ⟨by omega, hni⟩
    · simpa only [poolStep, if_neg hc] using ⟨hnd, hlen, hlt, hres⟩
  | finish i =>
    by_cases hc : i ∈ s.running
    · have hstep : poolStep m n run s (.finish i) =
          ⟨s.nextIdx, s.running.erase i, s.done ++ [(i, run i)]⟩ := by
        simp [poolStep, if_pos hc]
      rw [hstep]
      refine ⟨?_, ?_, ?_, ?_⟩ <;> dsimp only
      · exact hnd.erase i
      · exact le_trans (List.erase_sublist i s.running).length_le hlen
      · intro j hj
        exact hlt j (List.mem_of_mem_erase hj)
      · intro j
        rw [resultsFor_append]
        by_cases hji : j = i
        · subst hji
          have h0 : resultsFor j s.done = [] := by
            rw [hres j, if_neg]
            rintro ⟨_, hni⟩
            exact hni hc
          have hcond : j < s.nextIdx ∧ j ∉ s.running.erase j :=
            ⟨hlt j hc, fun hm => (hnd.mem_erase_iff.mp hm).1 rfl⟩
          rw [if_pos rfl, h0, if_pos hcond]
          simp
        · rw [if_neg (fun he => hji he.symm)]
          rw [List.append_nil, hres j]
          refine if_congr ?_ rfl rfl
          constructor
          · rintro ⟨h1, h2⟩
            exact ⟨h1, fun hm => h2 (hnd.mem_erase_iff.mp hm).2⟩
          · rintro ⟨h1, h2⟩
            exact ⟨h1, fun hm => h2 ((hnd.mem_erase_iff.mpr ⟨hji, hm⟩))⟩
    · simpa only [poolStep, if_neg hc] using ⟨hnd, hlen, hlt, hres⟩

/-- The pool invariant holds after any scheduler sequence. -/
theorem poolInv_run {β : Type} (m n : Nat) (run : Nat → β) (acts : List PoolAction) :
    PoolInv m run (poolRun m n run acts) := by
  suffices h : ∀ s, PoolInv m run s →
      PoolInv m run (acts.foldl (fun s a => poolStep m n run s a) s) from
    h _ (poolInv_init m run)
  induction acts with
  | nil => intro s hs; exact hs
  | cons a rest ih =>
    intro s hs
    exact ih _ (poolInv_step m n run s a hs)

/-! ## Claim theorems -/

/-- Claim C3, counterexample: the claim says every element-wait timeout
is proxy-conditional with the contractual values (challenge-frame
detection 10000 ms with a proxy, audio-button 5000 ms, download-link
12000 ms), but the API solver (`src/api_solver.py` lines 179-202) uses
the fixed values 3000/2000/5000 ms even when a proxy is configured. -/
theorem c3_counterexample :
    apiChallengeFrameTimeoutMs true = 3000 ∧ apiChallengeFrameTimeoutMs true ≠ 10000 ∧
    apiAudioButtonTimeoutMs true ≠ 5000 ∧ apiDownloadLinkTimeoutMs true ≠ 12000 := by
  exact ⟨rfl, by decide, by decide, by decide⟩

/-- Claim C3, amended: in the sync and async solvers every element-wait
timeout is proxy-conditional with the contractual values (checkbox
default 20000/8000, challenge frame 10000/3000, audio button 5000/2000,
download link 12000/5000), and so is the API solver's default
(checkbox) timeout; but the API solver's challenge-frame, audio-button
and download-link waits are fixed at 3000, 2000 and 5000 ms regardless
of proxy. -/
theorem c3_amended :
    defaultTimeoutMs true = 20000 ∧ defaultTimeoutMs false = 8000 ∧
    challengeFrameTimeoutMs true = 10000 ∧ challengeFrameTimeoutMs false = 3000 ∧
    audioButtonTimeoutMs true = 5000 ∧ audioButtonTimeoutMs false = 2000 ∧
    downloadLinkTimeoutMs true = 12000 ∧ downloadLinkTimeoutMs false = 5000 ∧
    asyncDefaultTimeoutMs true = 20000 ∧ asyncDefaultTimeoutMs false = 8000 ∧
    asyncChallengeFrameTimeoutMs true = 10000 ∧ asyncChallengeFrameTimeoutMs false = 3000 ∧
    asyncAudioButtonTimeoutMs true = 5000 ∧ asyncAudioButtonTimeoutMs false = 2000 ∧
    asyncDownloadLinkTimeoutMs true = 12000 ∧ asyncDownloadLinkTimeoutMs false = 5000 ∧
    apiDefaultTimeoutMs true = 20000 ∧ apiDefaultTimeoutMs false = 8000 ∧
    (∀ b, apiChallengeFrameTimeoutMs b = 3000) ∧
    (∀ b, apiAudioButtonTimeoutMs b = 2000) ∧
    (∀ b, apiDownloadLinkTimeoutMs b = 5000) := by
  decide

/-- Claim C4: `_get_token` runs exactly four strategies in fixed order;
it returns the first strategy's truthy token regardless of what the
later strategies would yield, a raising strategy is swallowed and the
next is tried, and when all four yield no token it fails with
`Could not retrieve reCAPTCHA token`. -/
theorem c4_token_extraction (r1 r2 r3 r4 : StratOutcome) :
    (∀ t, yieldsToken r1 = some t → getTokenChain r1 r2 r3 r4 = .ok t) ∧
    (yieldsToken r1 = none → ∀ t, yieldsToken r2 = some t →
      getTokenChain r1 r2 r3 r4 = .ok t) ∧
    (yieldsToken r1 = none → yieldsToken r2 = none → ∀ t, yieldsToken r3 = some t →
      getTokenChain r1 r2 r3 r4 = .ok t) ∧
    (yieldsToken r1 = none → yieldsToken r2 = none → yieldsToken r3 = none →
      ∀ t, yieldsToken r4 = some t → getTokenChain r1 r2 r3 r4 = .ok t) ∧
    (yieldsToken r1 = none → yieldsToken r2 = none → yieldsToken r3 = none →
      yieldsToken r4 = none →
      getTokenChain r1 r2 r3 r4 = .error "Could not retrieve reCAPTCHA token") ∧
    (∀ msg rest, tryMethods (.err msg :: rest) = tryMethods rest) := by
  refine ⟨?_, ?_, ?_, ?_, ?_, fun msg rest => rfl⟩
  · intro t h
    exact tryMethods_cons_some r1 _ t h
  · intro h1 t h
    show tryMethods _ = _
    rw [tryMethods_cons_none r1 _ h1]
    exact tryMethods_cons_some r2 _ t h
  · intro h1 h2 t h
    show tryMethods _ = _
    rw [tryMethods_cons_none r1 _ h1, tryMethods_cons_none r2 _ h2]
    exact tryMethods_cons_some r3 _ t h
  · intro h1 h2 h3 t h
    show tryMethods _ = _
    rw [tryMethods_cons_none r1 _ h1, tryMethods_cons_none r2 _ h2,
      tryMethods_cons_none r3 _ h3]
    exact tryMethods_cons_some r4 _ t h
  · intro h1 h2 h3 h4
    show tryMethods _ = _
    rw [tryMethods_cons_none r1 _ h1, tryMethods_cons_none r2 _ h2,
      tryMethods_cons_none r3 _ h3, tryMethods_cons_none r4 _ h4]
    rfl

/-- Claim C4, witness: the first strategy raises, the second returns an
empty string, the third and fourth would both succeed; the chain
returns the third strategy's token. -/
theorem c4_witness :
    yieldsToken (.err "evaluate failed") = none ∧
    yieldsToken (.val (some "")) = none ∧
    yieldsToken (.val (some "TOKEN3")) = some "TOKEN3" ∧
    getTokenChain (.err "evaluate failed") (.val (some ""))
      (.val (some "TOKEN3")) (.val (some "TOKEN4")) = .ok "TOKEN3" :=
  ⟨rfl, rfl, rfl,
    (c4_token_extraction (.err "evaluate failed") (.val (some ""))
        (.val (some "TOKEN3")) (.val (some "TOKEN4"))).2.2.1 rfl rfl "TOKEN3" rfl⟩

/-- Claim C5: the rate-limit check returns true iff the banner text
contains the substring `Try again later`, and returns false (without
raising) when the banner read fails or yields no text. -/
theorem c5_rate_limit_detector :
    (∀ t : String, check_rate_limit (.ok (some t)) = true ↔
      "Try again later".data <:+: t.data) ∧
    check_rate_limit (.error ()) = false ∧
    check_rate_limit (.ok none) = false := by
  refine ⟨fun t => ?_, rfl, rfl⟩
  show containsSub "Try again later" t = true ↔ _
  exact containsList_iff _ _

/-- Claim C5, witness: the spec's two examples, decided through the
detector theorem. -/
theorem c5_witness :
    check_rate_limit (.ok (some "Try again later, thanks")) = true ∧
    check_rate_limit (.ok (some "Please try again")) = false := by
  constructor
  · exact (c5_rate_limit_detector.1 "Try again later, thanks").mpr (by decide)
  · rw [Bool.eq_false_iff]
    intro htrue
    exact absurd ((c5_rate_limit_detector.1 "Please try again").mp htrue) (by decide)

/-- Claim C7, counterexample: with a successful solve, `checkScore`
set and a response whose JSON lacks the score field, the `score`
variable ends up as Python `None` (the chained `.get` default), not
the string `"Unknown"` the claim requires. -/
theorem c7_counterexample :
    (solve_recaptcha none none true (some "KEY") happyOuter .jsonMissing).score
      = some ScoreVal.pyNone ∧
    (solve_recaptcha none none true (some "KEY") happyOuter .jsonMissing).result
      = .ok "TOKEN" ∧
    some ScoreVal.pyNone ≠ some ScoreVal.unknownStr := by
  refine ⟨rfl, rfl, by decide⟩

/-- Claim C7, amended: a network error or a non-JSON response degrades
the score to `"Unknown"`, while a missing score field leaves it Python
`None`; in every case the score-check outcome is absorbed locally and
never changes the session's returned result. -/
theorem c7_score_check_isolated :
    runScoreCheck .netErr = .unknownStr ∧
    runScoreCheck .badJson = .unknownStr ∧
    runScoreCheck .jsonMissing = .pyNone ∧
    ∀ (proxy : Option Unit) (wait : Option Nat) (sk : Option String)
      (oe : OuterEnv) (po po' : PostOutcome),
      (solve_recaptcha proxy wait true sk oe po).result =
        (solve_recaptcha proxy wait true sk oe po').result :=
  ⟨rfl, rfl, rfl, fun _ _ _ _ _ _ => rfl⟩

/-- Claim C9: for every raw recognizer output, a successfully produced
transcription contains only (ASCII) alphanumeric and whitespace
characters and is its own lowercase image, and an empty cleaned text
fails with the transcription error `Could not understand audio`
instead of being returned. -/
theorem c9_transcription_clean (t : List Nat) :
    (∀ out, convert_audio_to_text (.text t) = .ok out →
      (∀ c ∈ out, (pyIsAlnumCp c || pyIsSpaceCp c) = true) ∧
        out.map pyLowerCp = out) ∧
    (cleanText t = [] →
      convert_audio_to_text (.text t) = .error "Could not understand audio") := by
  constructor
  · intro out hout
    simp only [convert_audio_to_text] at hout
    by_cases he : (cleanText t).isEmpty
    · simp [he] at hout
    · simp only [he, Bool.false_eq_true, if_false] at hout
      cases hout
      constructor
      · intro c hc
        exact (cleanText_mem (pyStrip_subset hc)).1
      · have hid : ∀ c ∈ pyStrip (cleanText t), pyLowerCp c = c :=
          fun c hc => (cleanText_mem (pyStrip_subset hc)).2
        calc (pyStrip (cleanText t)).map pyLowerCp
            = (pyStrip (cleanText t)).map id := List.map_congr_left hid
          _ = pyStrip (cleanText t) := List.map_id _
  · intro h
    simp [convert_audio_to_text, h]

/-- Claim C9, witness: recognizer output `HI 9!` (codepoints) is
cleaned to `hi 9` — lowercased, alphanumeric-and-space only. -/
theorem c9_witness :
    convert_audio_to_text (.text [72, 73, 32, 57, 33]) = .ok [104, 105, 32, 57] ∧
    (∀ c ∈ [104, 105, 32, 57], (pyIsAlnumCp c || pyIsSpaceCp c) = true) ∧
    List.map pyLowerCp [104, 105, 32, 57] = [104, 105, 32, 57] := by
  have h := (c9_transcription_clean [72, 73, 32, 57, 33]).1 [104, 105, 32, 57] rfl
  exact ⟨rfl, h.1, h.2⟩

/-- The `finally`-block sleep events contain no close events. -/
theorem waitEvents_count_close (w : Option Nat) :
    (waitEvents w).count Ev.closeContext = 0 ∧
    (waitEvents w).count Ev.closeBrowser = 0 := by
  cases w with
  | none => simp [waitEvents]
  | some d =>
    by_cases hd : (d == 0) = true <;> simp [waitEvents, hd, List.count_cons]

/-- Once the page has been created, the session's event trace is the
body's events (at most one transcription) followed by the
`finally`-block events: the sleep, then the two close events. -/
theorem sessionCore_events (proxy : Option Unit) (wait : Option Nat) (cs : Bool)
    (sk : Option String) (oe : OuterEnv)
    (hparam : (cs && optStrFalsy sk) = false)
    (hL : oe.launch = .ok ()) (hC : oe.newContext = .ok ()) (hP : oe.newPage = .ok ()) :
    ∃ l, (l = [] ∨ l = [Ev.transcribe]) ∧
      (sessionCore proxy wait cs sk oe).2 =
        l ++ (waitEvents wait ++ [Ev.closeContext, Ev.closeBrowser]) := by
  cases hG : oe.goto with
  | error e =>
    exact ⟨[], Or.inl rfl, by simp [sessionCore, hparam, hL, hC, hP, hG]⟩
  | ok u =>
    cases u
    have hevs := solveInner_events oe.page oe.inner
    rcases hsi : solveInner oe.page oe.inner with ⟨res, evs⟩
    rw [hsi] at hevs
    simp only at hevs
    cases res with
    | ok tok =>
      exact ⟨evs, hevs, by simp [sessionCore, hparam, hL, hC, hP, hG, hsi]⟩
    | error e =>
      refine ⟨evs, hevs, ?_⟩
      by_cases hif : containsSub "rate limit" (pyLower (errMsg e)) = true
      · simp [sessionCore, hparam, hL, hC, hP, hG, hsi, hif]
      · simp only [Bool.not_eq_true] at hif
        simp [sessionCore, hparam, hL, hC, hP, hG, hsi, hif]

/-- Claim C1, counterexample: a session whose challenge-iframe wait
times out (`wait_for_selector` raises `TimeoutError`, there is no
surrounding catch) does not proceed to token extraction: although the
first token strategy would yield `TOKEN`, the session reports the
wrapped generic error.  The audio collaborator is also never invoked
(empty event list). -/
theorem c1_counterexample :
    noBframeEnv.challengeWait (challengeFrameTimeoutMs false) = .error .timeoutErr ∧
    noBframeEnv.strat1 = .val (some "TOKEN") ∧
    (solveInner ⟨none⟩ noBframeEnv).1 =
      .error (.exn ("Failed to solve reCAPTCHA: " ++ errMsg .timeoutErr)) ∧
    (solveInner ⟨none⟩ noBframeEnv).2 = [] :=
  ⟨rfl, rfl, rfl, rfl⟩

/-- Claim C1, amended: the session proceeds directly to token
extraction (without invoking the audio collaborator) only when the
challenge-iframe wait returns an element whose `content_frame()` is
null; when the challenge iframe is not found within its detection
timeout, the wait raises and the session fails with the wrapped
generic challenge error — still without invoking the audio
collaborator. -/
theorem c1_no_challenge_paths (page : PageObj) (env : SolveEnv)
    (hinit : env.initialStep (defaultTimeoutMs (getattrProxyTruthy page)) = .ok ()) :
    (env.challengeWait (challengeFrameTimeoutMs (getattrProxyTruthy page)) = .ok none →
      solveInner page env =
        (wrapSolveErr
          ((getTokenChain env.strat1 env.strat2 env.strat3 env.strat4).mapError .exn),
          [])) ∧
    (env.challengeWait (challengeFrameTimeoutMs (getattrProxyTruthy page))
        = .error .timeoutErr →
      solveInner page env =
        (.error (.exn ("Failed to solve reCAPTCHA: " ++ errMsg .timeoutErr)), [])) := by
  constructor <;> intro h <;>
    simp [solveInner, hinit, h, wrapSolveErr]

/-- Claim C1, witness: with a null challenge content frame the session
goes straight to the token chain with no transcription event. -/
theorem c1_witness :
    contentNullEnv.initialStep (defaultTimeoutMs (getattrProxyTruthy ⟨none⟩)) = .ok () ∧
    contentNullEnv.challengeWait (challengeFrameTimeoutMs (getattrProxyTruthy ⟨none⟩))
      = .ok none ∧
    solveInner ⟨none⟩ contentNullEnv =
      (wrapSolveErr
        ((getTokenChain contentNullEnv.strat1 contentNullEnv.strat2
          contentNullEnv.strat3 contentNullEnv.strat4).mapError .exn),
        []) :=
  ⟨rfl, rfl, (c1_no_challenge_paths ⟨none⟩ contentNullEnv rfl).1 rfl⟩

/-- Claim C6, counterexample: the audio-button wait times out, the
rate-limit detector reports no rate limit — yet the timeout does not
propagate as an error: the code swallows it, proceeds to the
download-link wait, and here the session even completes successfully
with a token. -/
theorem c6_counterexample :
    audioTimeoutEnv.audioButtonWait (audioButtonTimeoutMs false) = .error .timeoutErr ∧
    check_rate_limit audioTimeoutEnv.bannerText = false ∧
    (solve_recaptcha none none false (some "KEY") audioTimeoutOuter .netErr).result
      = .ok "TOKEN" :=
  ⟨rfl, rfl, rfl⟩

/-- Claim C6, amended: when the audio-button wait times out, the
rate-limit detector is invoked; if it reports a rate limit the session
fails with a rate-limit error whose final message (rewritten by the
outer handler of `solve_recaptcha` from its `proxy` argument) asks for
a different proxy iff a proxy was configured; if it reports no rate
limit, the timeout is swallowed and the session proceeds to the
download-link wait — only if that wait also times out does the session
fail with the wrapped generic challenge error. -/
theorem c6_audio_timeout_paths (proxy : Option Unit) (wait : Option Nat)
    (sk : Option String) (oe : OuterEnv)
    (hL : oe.launch = .ok ()) (hC : oe.newContext = .ok ()) (hP : oe.newPage = .ok ())
    (hG : oe.goto = .ok ())
    (hinit : oe.inner.initialStep (defaultTimeoutMs (getattrProxyTruthy oe.page)) = .ok ())
    (hch : oe.inner.challengeWait (challengeFrameTimeoutMs (getattrProxyTruthy oe.page))
      = .ok (some ()))
    (hab : oe.inner.audioButtonWait (audioButtonTimeoutMs (getattrProxyTruthy oe.page))
      = .error .timeoutErr) :
    (check_rate_limit oe.inner.bannerText = true →
      (solve_recaptcha proxy wait false sk oe .netErr).result
        = .error (.exn (rlFinalMsg proxy)) ∧
      containsSub "different proxy" (rlFinalMsg proxy) = proxy.isSome) ∧
    (check_rate_limit oe.inner.bannerText = false →
      oe.inner.downloadWait (downloadLinkTimeoutMs (getattrProxyTruthy oe.page))
        = .error .timeoutErr →
      (solve_recaptcha proxy wait false sk oe .netErr).result
        = .error (.exn ("Failed to solve reCAPTCHA: " ++ errMsg .timeoutErr))) := by
  constructor
  · intro hrl
    constructor
    · by_cases hp : hasattrProxy oe.page = true
      · have hsolve : solveInner oe.page oe.inner =
            (.error (.exn ("Failed to solve reCAPTCHA: " ++ rateLimitProxyMsg)), []) := by
          simp [solveInner, get_audio_challenge, hinit, hch, hab, hrl, hp,
            wrapSolveErr, errMsg]
        have hrw : containsSub "rate limit"
            (pyLower ("Failed to solve reCAPTCHA: " ++ rateLimitProxyMsg)) = true := by
          decide
        simp [solve_recaptcha, sessionCore, hL, hC, hP, hG, hsolve, errMsg, hrw]
      · simp only [Bool.not_eq_true] at hp
        have hsolve : solveInner oe.page oe.inner =
            (.error (.exn ("Failed to solve reCAPTCHA: " ++ rateLimitGenericMsg)), []) := by
          simp [solveInner, get_audio_challenge, hinit, hch, hab, hrl, hp,
            wrapSolveErr, errMsg]
        have hrw : containsSub "rate limit"
            (pyLower ("Failed to solve reCAPTCHA: " ++ rateLimitGenericMsg)) = true := by
          decide
        simp [solve_recaptcha, sessionCore, hL, hC, hP, hG, hsolve, errMsg, hrw]
    · cases proxy with
      | none => decide
      | some u => cases u; decide
  · intro hrl hdl
    have hsolve : solveInner oe.page oe.inner =
        (.error (.exn ("Failed to solve reCAPTCHA: " ++ errMsg .timeoutErr)), []) := by
      simp [solveInner, get_audio_challenge, hinit, hch, hab, hrl, hdl,
        wrapSolveErr, errMsg]
    have hrw : containsSub "rate limit"
        (pyLower "Failed to solve reCAPTCHA: Timeout exceeded") = false := by
      decide
    simp [solve_recaptcha, sessionCore, hL, hC, hP, hG, hsolve, errMsg, hrw]

/-- Claim C6, witness: the spec scenario — audio button never visible,
banner reads `Try again later, please`, proxy configured — yields the
rate-limit error asking for a different proxy. -/
theorem c6_witness :
    check_rate_limit rateLimitedEnv.bannerText = true ∧
    (solve_recaptcha (some ()) none false (some "KEY") rateLimitedOuter .netErr).result
      = .error (.exn (rlFinalMsg (some ()))) ∧
    containsSub "different proxy" (rlFinalMsg (some ())) = (some ()).isSome := by
  have h := (c6_audio_timeout_paths (some ()) none (some "KEY") rateLimitedOuter
    rfl rfl rfl rfl rfl rfl rfl).1 (by decide)
  exact ⟨by decide, h.1, h.2⟩

/-- Claim C8, counterexample: when `browser.new_context` raises (the
browser has already been launched), the error propagates through the
outer `except` at line 205 of `src/sync_solver.py` without ever
reaching the inner `finally`: neither the context nor the browser is
closed on this exit path (zero close events), contradicting
`closed exactly once on every exit path`. -/
theorem c8_counterexample :
    ctxFailOuter.launch = .ok () ∧
    (solve_recaptcha none none false (some "KEY") ctxFailOuter .netErr).result
      = .error (.exn "invalid proxy configuration") ∧
    (solve_recaptcha none none false (some "KEY") ctxFailOuter .netErr).events.count
      Ev.closeContext = 0 ∧
    (solve_recaptcha none none false (some "KEY") ctxFailOuter .netErr).events.count
      Ev.closeBrowser = 0 :=
  ⟨rfl, rfl, rfl, rfl⟩

/-- Claim C8, amended: once the page has been created (browser launch,
context creation and page creation all succeeded, and the parameter
check passed), every exit path of the session — success, any caught
error, or timeout — closes the context exactly once and the browser
exactly once; an exit before page creation performs neither close. -/
theorem c8_cleanup_once (proxy : Option Unit) (wait : Option Nat) (cs : Bool)
    (sk : Option String) (oe : OuterEnv) (po : PostOutcome)
    (hparam : (cs && optStrFalsy sk) = false)
    (hL : oe.launch = .ok ()) (hC : oe.newContext = .ok ()) (hP : oe.newPage = .ok ()) :
    (solve_recaptcha proxy wait cs sk oe po).events.count Ev.closeContext = 1 ∧
    (solve_recaptcha proxy wait cs sk oe po).events.count Ev.closeBrowser = 1 := by
  obtain ⟨l, hl, he⟩ := sessionCore_events proxy wait cs sk oe hparam hL hC hP
  have hev : (solve_recaptcha proxy wait cs sk oe po).events =
      (sessionCore proxy wait cs sk oe).2 := rfl
  rw [hev, he]
  have hl0 : l.count Ev.closeContext = 0 ∧ l.count Ev.closeBrowser = 0 := by
    rcases hl with rfl | rfl <;> simp [List.count_cons]
  have hw0 := waitEvents_count_close wait
  constructor
  · rw [List.count_append, List.count_append, hl0.1, hw0.1]
    decide
  · rw [List.count_append, List.count_append, hl0.2, hw0.2]
    decide

/-- Claim C8, witness: a fully successful session closes the context
and the browser exactly once. -/
theorem c8_witness :
    (false && optStrFalsy (some "KEY")) = false ∧
    happyOuter.launch = .ok () ∧ happyOuter.newContext = .ok () ∧
    happyOuter.newPage = .ok () ∧
    (solve_recaptcha none none false (some "KEY") happyOuter .netErr).events.count
      Ev.closeContext = 1 ∧
    (solve_recaptcha none none false (some "KEY") happyOuter .netErr).events.count
      Ev.closeBrowser = 1 := by
  have h := c8_cleanup_once none none false (some "KEY") happyOuter .netErr
    rfl rfl rfl rfl
  exact ⟨rfl, rfl, rfl, rfl, h.1, h.2⟩

/-- Claim C10, counterexample: with `wait` set to 5, a failure in
`browser.new_context` exits the session without sleeping at all (and
without closing anything), so the sleep does not happen on every exit
path. -/
theorem c10_counterexample :
    (solve_recaptcha none (some 5) false (some "KEY") ctxFailOuter .netErr).result
      = .error (.exn "invalid proxy configuration") ∧
    Ev.sleepEv 5 ∉
      (solve_recaptcha none (some 5) false (some "KEY") ctxFailOuter .netErr).events := by
  exact ⟨rfl, by decide⟩

/-- Claim C10, amended: with `wait` set to a nonzero duration, every
exit path that reaches page creation — success or failure alike —
sleeps for the full wait duration immediately before closing the
context and then the browser (the trace ends with sleep, close
context, close browser); exits before page creation neither sleep nor
close. -/
theorem c10_wait_before_close (proxy : Option Unit) (cs : Bool) (sk : Option String)
    (oe : OuterEnv) (po : PostOutcome) (d : Nat)
    (hd : (d == 0) = false)
    (hparam : (cs && optStrFalsy sk) = false)
    (hL : oe.launch = .ok ()) (hC : oe.newContext = .ok ()) (hP : oe.newPage = .ok ()) :
    [Ev.sleepEv d, Ev.closeContext, Ev.closeBrowser] <:+
      (solve_recaptcha proxy (some d) cs sk oe po).events := by
  obtain ⟨l, _, he⟩ := sessionCore_events proxy (some d) cs sk oe hparam hL hC hP
  have hev : (solve_recaptcha proxy (some d) cs sk oe po).events =
      (sessionCore proxy (some d) cs sk oe).2 := rfl
  rw [hev, he]
  have hwe : waitEvents (some d) = [Ev.sleepEv d] := by
    simp [waitEvents, hd]
  rw [hwe]
  exact ⟨l, rfl⟩

/-- Claim C10, witness: a session that fails during navigation with
`wait = 5` still sleeps for the full duration before the two closes. -/
theorem c10_witness :
    ((5 : Nat) == 0) = false ∧
    gotoFailOuter.goto = .error (.exn "net ERR_TIMED_OUT") ∧
    [Ev.sleepEv 5, Ev.closeContext, Ev.closeBrowser] <:+
      (solve_recaptcha none (some 5) false (some "KEY") gotoFailOuter .netErr).events := by
  have h := c10_wait_before_close none false (some "KEY") gotoFailOuter .netErr 5
    rfl rfl rfl rfl rfl
  exact ⟨rfl, rfl, h⟩

/-- Claim C2: for every finished batch schedule, the gathered result
list has one slot per task and slot `i` holds exactly task `i`'s
result (submission order preserved, regardless of the completion
order the schedule chose), and after every prefix of the schedule at
most `maxConcurrent` sessions are live. -/
theorem c2_pool_order_and_bound {β : Type} (m n : Nat) (run : Nat → β)
    (acts : List PoolAction)
    (hfin : poolFinal n (poolRun m n run acts) = true) :
    poolGather n (poolRun m n run acts).done =
      (List.range n).map (fun i => [run i]) ∧
    ∀ pre, pre <+: acts → (poolRun m n run pre).running.length ≤ m := by
  obtain ⟨hnd, hlen, hlt, hres⟩ := poolInv_run m n run acts
  simp only [poolFinal, Bool.and_eq_true, beq_iff_eq, List.isEmpty_iff] at hfin
  refine ⟨?_, fun pre _ => (poolInv_run m n run pre).2.1⟩
  unfold poolGather
  refine List.map_congr_left ?_
  intro i hi
  have h := hres i
  rw [hfin.1, hfin.2] at h
  rw [h, if_pos ⟨List.mem_range.mp hi, List.not_mem_nil i⟩]

/-- Claim C2, witness: bound 2, five tasks, a schedule that completes
tasks out of order (1 before 0, 3 before 2); the batch still returns
slot `i` holding task `i`'s result, and a mid-schedule prefix respects
the bound. -/
theorem c2_witness :
    poolFinal 5 (poolRun 2 5 (fun i => i * 10) c2Acts) = true ∧
    poolGather 5 (poolRun 2 5 (fun i => i * 10) c2Acts).done =
      (List.range 5).map (fun i => [i * 10]) ∧
    (poolRun 2 5 (fun i => i * 10) (c2Acts.take 3)).running.length ≤ 2 := by
  refine ⟨by decide, ?_, ?_⟩
  · exact (c2_pool_order_and_bound 2 5 (fun i => i * 10) c2Acts (by decide)).1
  · exact (c2_pool_order_and_bound 2 5 (fun i => i * 10) c2Acts (by decide)).2
      (c2Acts.take 3) ( List.take_prefix 3 c2Acts)
